import Mathlib

/-!
Verification of `eclipse.py` (Dropbox → Threads multi-account uploader).

The development shallowly embeds the program's components:

* the Threads publisher `post_to_threads` (media path): container creation,
  the transcode-poll loop (`max_retries = 20`), and the publish retry loop
  (3 attempts, retrying only on `error_subcode 2207032`);
* the per-account orchestration of `__main__` (`processAccount`), including
  the inner `run_with_file` and the fallback `run`;
* the Telegram notifier: `send_log_summary` buffer flushing and the
  4000-character message chunking shared with `send_overall_summary`.

The remote platform is modelled by response oracles.  Threads API responses
are JSON, per the API contract: a response is an HTTP status code together
with the relevant fields of the parsed JSON body; a field extracted with
`.get` that may be absent is an `Option`.  A publish response whose body is
not parseable as JSON is modelled with `body = none` (the code wraps the
parse in `try/except`, so this is the faithful translation of that path).

`time.sleep` calls carry no functional content; the only timing fact that
claims mention — the 3-second settle sleep taken after a `FINISHED` poll —
is recorded as the Boolean `settled` field of the publisher's trace.
-/

/-! ### Threads API responses (publisher environment) -/

/-- Parsed `error` object of a publish-failure JSON body:
`err_json.get("error", {}).get("error_subcode")`. -/
structure ErrObj where
  error_subcode : Option Int
deriving Repr, DecidableEq

/-- Parsed JSON body of a publish response: the optional `error` object. -/
structure PubBody where
  error : Option ErrObj
deriving Repr, DecidableEq

/-- A response to a `threads_publish` POST.  `body = none` models a body
that `pub_res.json()` fails to parse (the exception is caught by the code). -/
structure PubResp where
  status_code : Nat
  body : Option PubBody
deriving Repr, DecidableEq

/-- The subcode extraction applied to a failure response, i.e. reading
the error object and its subcode with absent defaults, with the
unparseable-body exception path folded in: any of body / `error` /
`error_subcode` missing yields `none`. -/
def subcodeOf (r : PubResp) : Option Int :=
  match r.body with
  | none => none
  | some b =>
    match b.error with
    | none => none
    | some e => e.error_subcode

/-- A response to a status poll GET: HTTP status code and the `status`
field of the JSON body (`poll_res.json().get("status")`). -/
structure PollResp where
  status_code : Nat
  status : Option String
deriving Repr, DecidableEq

/-- A response to the container-creation POST: HTTP status code and the
`id` field of the JSON body (`res.json().get("id")`). -/
structure CreateResp where
  status_code : Nat
  id : Option String
deriving Repr, DecidableEq

/-- A poll response that keeps the loop going: HTTP 200 and a body status
that is neither `FINISHED` nor `ERROR`. -/
def pollNonTerminal (r : PollResp) : Prop :=
  r.status_code = 200 ∧ r.status ≠ some "FINISHED" ∧ r.status ≠ some "ERROR"

instance (r : PollResp) : Decidable (pollNonTerminal r) := by
  unfold pollNonTerminal; infer_instance

/-! ### The publish retry loop (`for attempt in range(3)`) -/

/-- One round of the `for attempt in range(3)` publish loop.  `fuel` is the
number of attempts remaining, `calls` the number of `requests.post` calls
already made (also the index of the next response).  Returns the value of
`post_to_threads` from this block together with the total number of publish
calls made.  Running out of fuel is the `"failed after retries"` exit. -/
def publishGo (pubs : Nat → PubResp) : Nat → Nat → Bool × Nat
  | 0, calls => (false, calls)
  | fuel + 1, calls =>
    if (pubs calls).status_code = 200 then
      (true, calls + 1)
    else if subcodeOf (pubs calls) = some 2207032 then
      publishGo pubs fuel (calls + 1)
    else
      (false, calls + 1)

/-- The publish step: at most 3 attempts, starting with no calls made. -/
def publishLoop (pubs : Nat → PubResp) : Bool × Nat :=
  publishGo pubs 3 0

/-! ### The transcode poll loop (`for _ in range(max_retries)`) -/

/-- How the poll loop exits, with the number of poll GETs made. -/
inductive PollOutcome where
  /-- a poll response had HTTP status ≠ 200: `post_to_threads` returns `False` -/
  | non200 (calls : Nat)
  /-- a poll body had `status == "ERROR"`: `post_to_threads` returns `False` -/
  | transcodeError (calls : Nat)
  /-- a poll body had `status == "FINISHED"`: settle sleep, `break` to publish -/
  | finished (calls : Nat)
  /-- the `for` loop ran out of attempts: control falls through to publish -/
  | exhausted (calls : Nat)
deriving Repr, DecidableEq

/-- One round of the poll loop, mirroring the branch order of the source:
non-200 first, then `FINISHED`, then `ERROR`, else sleep and continue. -/
def pollGo (polls : Nat → PollResp) : Nat → Nat → PollOutcome
  | 0, calls => .exhausted calls
  | fuel + 1, calls =>
    if (polls calls).status_code ≠ 200 then
      .non200 (calls + 1)
    else if (polls calls).status = some "FINISHED" then
      .finished (calls + 1)
    else if (polls calls).status = some "ERROR" then
      .transcodeError (calls + 1)
    else
      pollGo polls fuel (calls + 1)

/-- The poll budget: `max_retries = 20` in the source. -/
def max_retries : Nat := 20

/-- The poll step: up to `max_retries` poll calls, starting from none. -/
def pollLoop (polls : Nat → PollResp) : PollOutcome :=
  pollGo polls max_retries 0

/-! ### The media path of `post_to_threads` -/

/-- Observable outcome of the media path of `post_to_threads`: the returned
success flag, the number of poll GETs, the number of publish POSTs, and
whether the 3-second settle sleep after `FINISHED` was taken. -/
structure MediaTrace where
  success : Bool
  pollCalls : Nat
  pubCalls : Nat
  settled : Bool
deriving Repr, DecidableEq

/-- The media path of `post_to_threads` (a temporary link is present):
container creation, then the poll loop, then the publish loop.  Mirrors the
source: non-200 creation or a falsy `creation_id` (absent or the empty
string) returns `False` before any polling; `ERROR` and non-200 polls
return `False` before any publishing; `FINISHED` (after the settle sleep)
and poll exhaustion both continue into the publish block. -/
def post_to_threads_media (res : CreateResp) (polls : Nat → PollResp)
    (pubs : Nat → PubResp) : MediaTrace :=
  if res.status_code ≠ 200 then
    ⟨false, 0, 0, false⟩
  else
    match res.id with
    | none => ⟨false, 0, 0, false⟩
    | some cid =>
      if cid = "" then ⟨false, 0, 0, false⟩
      else
        match pollLoop polls with
        | .non200 c => ⟨false, c, 0, false⟩
        | .transcodeError c => ⟨false, c, 0, false⟩
        | .finished c => ⟨(publishLoop pubs).1, c, (publishLoop pubs).2, true⟩
        | .exhausted c => ⟨(publishLoop pubs).1, c, (publishLoop pubs).2, false⟩

/-! ### Storage client and per-account orchestration (`__main__`)

The per-account storage environment is modelled as a fixed record for the
duration of that account's processing: per §5 of the system's design, the
remote folder is accessed by exactly one sequential workflow, and whether
the OAuth token refresh / folder listing succeeds is a property of the
account's stored credentials.  `post_to_threads` itself is abstracted here
to its returned success flag (`postResult`); its internals are the subject
of the publisher model above. -/

/-- A Dropbox folder entry as used by the script (`f.name`, `f.path_lower`). -/
structure FileEntry where
  name : String
  path_lower : String
deriving Repr, DecidableEq

/-- The eligibility test `f.name.lower().endswith(...)` over the five
allowed media extensions, computed over the name's character list: lower-case every character, then
test each extension as a suffix. -/
def validExt (n : String) : Bool :=
  let ln := n.data.map Char.toLower
  ".mp4".data.isSuffixOf ln || ".mov".data.isSuffixOf ln ||
    ".jpg".data.isSuffixOf ln || ".jpeg".data.isSuffixOf ln ||
    ".png".data.isSuffixOf ln

/-- The `list_dropbox_files` method: the folder listing filtered down to
eligible media names. -/
def list_dropbox_files (entries : List FileEntry) : List FileEntry :=
  entries.filter (fun f => validExt f.name)

/-- Fixed per-account environment for one orchestrator iteration. -/
structure AccountEnv where
  account_name : String
  /-- whether authenticating to Dropbox and listing the folder succeeds -/
  authOk : Bool
  /-- the remote folder contents -/
  entries : List FileEntry
  /-- models the index drawn by `random.choice` -/
  chooseIdx : Nat
  /-- the success flag returned by `post_to_threads` for the chosen file -/
  postResult : Bool
  /-- whether `files_delete_v2` succeeds -/
  deleteOk : Bool
deriving Repr, DecidableEq

/-- External calls and notable log events of one account's processing. -/
inductive Ev where
  /-- a Dropbox authenticate / list interaction -/
  | storageRead
  /-- `random.choice(files)` selected the named file -/
  | pick (name : String)
  /-- `post_to_threads` was invoked for the named file -/
  | publishAttempt (name : String)
  /-- `files_delete_v2(path)` was called -/
  | deleteCall (path : String)
  /-- the `"Failed to delete file"` warning was logged -/
  | warnDeleteFailed (name : String)
  /-- the `"Script crashed"` handler ran -/
  | crashLogged
deriving Repr, DecidableEq

/-- Whether an event is a storage delete call. -/
def Ev.isDelete : Ev → Bool
  | .deleteCall _ => true
  | _ => false

/-- The file `random.choice` picks from the eligible listing. -/
def chosenFile (env : AccountEnv) : FileEntry :=
  (list_dropbox_files env.entries).getD
    (env.chooseIdx % (list_dropbox_files env.entries).length) ⟨"", ""⟩

/-- The monkey-patched `run_with_file(self, chosen_file)` of `__main__`:
re-authenticate, post the predetermined file, then attempt the delete once
inside its own `try/except` (a failure only logs a warning), and return the
publish flag with the file name.  An exception from authentication is
caught by the outer handler, which returns `(False, None)`. -/
def run_with_file (env : AccountEnv) (chosen : FileEntry) :
    (Bool × Option String) × List Ev :=
  if env.authOk then
    ((env.postResult, some chosen.name),
      [Ev.storageRead, Ev.publishAttempt chosen.name,
        Ev.deleteCall chosen.path_lower] ++
        (if env.deleteOk then [] else [Ev.warnDeleteFailed chosen.name]))
  else
    ((false, none), [Ev.storageRead, Ev.crashLogged])

/-- The uploader's `run()` method, called by `__main__` when the initial
listing produced no files: it authenticates and lists again, logs
`"No files found"` on an empty listing, and otherwise runs the full
pick / post / delete workflow. -/
def run_fn (env : AccountEnv) : List Ev :=
  if env.authOk then
    match list_dropbox_files env.entries with
    | [] => [Ev.storageRead]
    | _ :: _ =>
      [Ev.storageRead, Ev.pick (chosenFile env).name,
        Ev.publishAttempt (chosenFile env).name,
        Ev.deleteCall (chosenFile env).path_lower] ++
        (if env.deleteOk then []
         else [Ev.warnDeleteFailed (chosenFile env).name])
  else [Ev.storageRead, Ev.crashLogged]

/-- The initial file count of the summary: a number, or the literal `'ERR'`
the script stores when the authenticate-and-list call raises. -/
inductive CountVal where
  | err
  | num (n : Nat)
deriving Repr, DecidableEq

/-- The summary-line construction of `__main__` (the
`if initial_count == 'ERR' / elif posted_file_name / else` chain; note the
`elif` tests Python truthiness, so an empty posted name falls through). -/
def buildSummary (name : String) (c : CountVal) (posted : Option String)
    (succ : Bool) : String :=
  match c with
  | .err => name ++ ": Dropbox error, could not count files."
  | .num n =>
    match posted with
    | some s =>
      if s = "" then name ++ (": " ++ (toString n ++ " files, no file posted."))
      else
        name ++ (": " ++ (toString n ++ (" files, posted: " ++ (s ++ (", " ++
          (if succ then "✅ Success" else "❌ Failed"))))))
    | none => name ++ (": " ++ (toString n ++ " files, no file posted."))

/-- What one iteration of the account loop records. -/
structure AccountResult where
  initial_count : CountVal
  posted_file_name : Option String
  post_success : Bool
  summary_line : String
  events : List Ev
deriving Repr, DecidableEq

/-- One iteration of the `for account in ACCOUNTS` loop of `__main__`:
count the eligible files (recording `'ERR'` if the authenticate-and-list
call raises), then either run `run_with_file` on the randomly chosen file,
or fall back to `run()`, and build the summary line. -/
def processAccount (env : AccountEnv) : AccountResult :=
  if env.authOk then
    match list_dropbox_files env.entries with
    | [] =>
      { initial_count := CountVal.num 0
        posted_file_name := none
        post_success := false
        summary_line := buildSummary env.account_name (CountVal.num 0) none false
        events := Ev.storageRead :: run_fn env }
    | f :: fs =>
      let chosen := chosenFile env
      let r := run_with_file env chosen
      { initial_count := CountVal.num (f :: fs).length
        posted_file_name := r.1.2
        post_success := r.1.1
        summary_line :=
          buildSummary env.account_name (CountVal.num (f :: fs).length) r.1.2 r.1.1
        events := Ev.storageRead :: Ev.pick chosen.name :: r.2 }
  else
    { initial_count := CountVal.err
      posted_file_name := none
      post_success := false
      summary_line := buildSummary env.account_name CountVal.err none false
      events := Ev.storageRead :: run_fn env }

/-! ### Notifier: buffer flushing and 4000-character chunking -/

/-- The Telegram message-length cap `max_len = 4000` used by both
`send_log_summary` and `send_overall_summary`. -/
def max_len : Nat := 4000

/-- The newline joining buffered log lines and summary lines. -/
def newlineChar : Char := Char.ofNat 10

/-- The slicing loop over a summary text stepping by `max_len`: the
successive 4000-character slices of the text, in order. -/
def chunkText : List Char → List (List Char)
  | [] => []
  | c :: cs => (c :: cs).take max_len :: chunkText ((c :: cs).drop max_len)
termination_by l => l.length
decreasing_by simp [max_len]; omega

/-- The notifier state an uploader instance carries: whether a Telegram bot
is configured and the buffered log lines (as character lists). -/
structure NotifState where
  botConfigured : Bool
  log_buffer : List (List Char)
deriving Repr, DecidableEq

/-- The `send_log_summary` method: when a bot is configured and the buffer is
non-empty, join the buffer with newlines and pass each 4000-character slice
to `send_message` (each send sits in its own `try/except`, so `sendOk` —
whether a given send raises — changes neither the slice sequence nor the
final state); afterwards the buffer is reset unconditionally.  Returns the
new state and the texts passed to `send_message`, in order. -/
def send_log_summary (st : NotifState) (_sendOk : Nat → Bool) :
    NotifState × List (List Char) :=
  if st.botConfigured && !st.log_buffer.isEmpty then
    ({ st with log_buffer := [] },
      chunkText (List.intercalate [newlineChar] st.log_buffer))
  else
    ({ st with log_buffer := [] }, [])

/-- The overall-summary header line, a bracketed title plus newline. -/
def overallHeader : List Char :=
  ("[Threads Multi-Account Summary]".data) ++ [newlineChar]

/-- The overall summary text `send_overall_summary` assembles:
header plus the newline-joined per-account lines. -/
def overallSummaryText (summary_lines : List (List Char)) : List Char :=
  overallHeader ++ List.intercalate [newlineChar] summary_lines

/-- The texts `send_overall_summary`'s loop passes to `send_message`, in
order, when the loop runs to completion. -/
def send_overall_chunks (summary_lines : List (List Char)) : List (List Char) :=
  chunkText (overallSummaryText summary_lines)

/-! ### Helper lemmas about the publish loop -/

lemma publishGo_calls_le (pubs : Nat → PubResp) :
    ∀ fuel c, (publishGo pubs fuel c).2 ≤ c + fuel := by
  intro fuel
  induction fuel with
  | zero => intro c; simp [publishGo]
  | succ n ih =>
    intro c
    simp only [publishGo]
    split
    · simp
    · split
      · have := ih (c + 1); omega
      · simp

lemma publishGo_calls_ge (pubs : Nat → PubResp) :
    ∀ fuel c, c ≤ (publishGo pubs fuel c).2 := by
  intro fuel
  induction fuel with
  | zero => intro c; simp [publishGo]
  | succ n ih =>
    intro c
    simp only [publishGo]
    split
    · simp
    · split
      · have := ih (c + 1); omega
      · simp

lemma publishGo_succ_pos (pubs : Nat → PubResp) :
    ∀ fuel c, c + 1 ≤ (publishGo pubs (fuel + 1) c).2 := by
  intro fuel c
  have h := publishGo_calls_ge pubs fuel (c + 1)
  simp only [publishGo]
  split
  · simp
  · split
    · omega
    · simp

/-- Every response that was followed by a further publish call was a
failure carrying the retryable subcode. -/
lemma publishGo_retry_prefix (pubs : Nat → PubResp) :
    ∀ fuel c i, c ≤ i → i + 1 < (publishGo pubs fuel c).2 →
      (pubs i).status_code ≠ 200 ∧ subcodeOf (pubs i) = some 2207032 := by
  intro fuel
  induction fuel with
  | zero => intro c i hci h; simp [publishGo] at h; omega
  | succ n ih =>
    intro c i hci h
    simp only [publishGo] at h
    split at h
    · simp at h; omega
    · rename_i h200
      split at h
      · rename_i hretry
        rcases Nat.eq_or_lt_of_le hci with rfl | hlt
        · exact ⟨h200, hretry⟩
        · exact ih (c + 1) i hlt h
      · simp at h; omega

/-- A call whose response is a failure without the retryable subcode ends
the loop right there with a failure result. -/
lemma publishGo_nonretry_stop (pubs : Nat → PubResp) :
    ∀ fuel c i, c ≤ i → i < (publishGo pubs fuel c).2 →
      (pubs i).status_code ≠ 200 → subcodeOf (pubs i) ≠ some 2207032 →
      publishGo pubs fuel c = (false, i + 1) := by
  intro fuel
  induction fuel with
  | zero => intro c i hci h _ _; simp [publishGo] at h; omega
  | succ n ih =>
    intro c i hci h hs hn
    simp only [publishGo] at h ⊢
    split at h
    · rename_i h200
      simp at h
      have : i = c := by omega
      exact absurd (this ▸ h200) hs
    · rename_i h200
      split at h
      · rename_i hretry
        rcases Nat.eq_or_lt_of_le hci with rfl | hlt
        · exact absurd hretry hn
        · rw [if_neg h200, if_pos hretry]
          exact ih (c + 1) i hlt h hs hn
      · rename_i hretry
        simp at h
        have : i = c := by omega
        subst this
        rw [if_neg h200, if_neg hretry]

/-- If every in-budget response fails, the loop returns a failure flag. -/
lemma publishGo_allfail_false (pubs : Nat → PubResp) :
    ∀ fuel c, (∀ i, c ≤ i → i < c + fuel → (pubs i).status_code ≠ 200) →
      (publishGo pubs fuel c).1 = false := by
  intro fuel
  induction fuel with
  | zero => intro c _; simp [publishGo]
  | succ n ih =>
    intro c hall
    have hc : (pubs c).status_code ≠ 200 := hall c le_rfl (by omega)
    simp only [publishGo]
    rw [if_neg hc]
    split
    · exact ih (c + 1) (fun i h1 h2 => hall i (by omega) (by omega))
    · rfl

/-- Reaching a failure response without the retryable subcode, after a
prefix of retryable failures, stops the loop at that call. -/
lemma publishGo_reach (pubs : Nat → PubResp) :
    ∀ fuel c i, c ≤ i → i < c + fuel →
      (∀ j, c ≤ j → j < i →
        (pubs j).status_code ≠ 200 ∧ subcodeOf (pubs j) = some 2207032) →
      (pubs i).status_code ≠ 200 → subcodeOf (pubs i) ≠ some 2207032 →
      publishGo pubs fuel c = (false, i + 1) := by
  intro fuel
  induction fuel with
  | zero => intro c i h1 h2 _ _ _; omega
  | succ n ih =>
    intro c i h1 h2 hpre hs hn
    rcases Nat.eq_or_lt_of_le h1 with rfl | hlt
    · simp only [publishGo]
      rw [if_neg hs, if_neg hn]
    · obtain ⟨hc200, hcsub⟩ := hpre c le_rfl hlt
      simp only [publishGo]
      rw [if_neg hc200, if_pos hcsub]
      exact ih (c + 1) i hlt (by omega)
        (fun j hj1 hj2 => hpre j (by omega) hj2) hs hn

lemma publishLoop_calls_pos (pubs : Nat → PubResp) :
    1 ≤ (publishLoop pubs).2 := by
  simpa [publishLoop] using publishGo_succ_pos pubs 2 0

/-! ### Helper lemmas about the poll loop -/

lemma pollGo_step_non200 (polls : Nat → PollResp) (fuel c : Nat)
    (h : (polls c).status_code ≠ 200) :
    pollGo polls (fuel + 1) c = .non200 (c + 1) := by
  simp [pollGo, h]

lemma pollGo_step_finished (polls : Nat → PollResp) (fuel c : Nat)
    (h200 : (polls c).status_code = 200)
    (hf : (polls c).status = some "FINISHED") :
    pollGo polls (fuel + 1) c = .finished (c + 1) := by
  simp [pollGo, h200, hf]

lemma pollGo_step_error (polls : Nat → PollResp) (fuel c : Nat)
    (h200 : (polls c).status_code = 200)
    (he : (polls c).status = some "ERROR") :
    pollGo polls (fuel + 1) c = .transcodeError (c + 1) := by
  simp [pollGo, h200, he]

lemma pollGo_step_continue (polls : Nat → PollResp) (fuel c : Nat)
    (h : pollNonTerminal (polls c)) :
    pollGo polls (fuel + 1) c = pollGo polls fuel (c + 1) := by
  simp [pollGo, h.1, h.2.1, h.2.2]

/-- Skipping a block of non-terminal responses advances the poll loop. -/
lemma pollGo_advance (polls : Nat → PollResp) :
    ∀ j fuel c, (∀ i, c ≤ i → i < c + j → pollNonTerminal (polls i)) →
      pollGo polls (fuel + j) c = pollGo polls fuel (c + j) := by
  intro j
  induction j with
  | zero => intro fuel c _; rfl
  | succ n ih =>
    intro fuel c hall
    have hc : pollNonTerminal (polls c) := hall c le_rfl (by omega)
    have h1 : fuel + (n + 1) = (fuel + n) + 1 := by omega
    rw [h1, pollGo_step_continue polls (fuel + n) c hc,
      ih fuel (c + 1) (fun i hi1 hi2 => hall i (by omega) (by omega))]
    congr 1
    omega

/-- If the first `k` responses are non-terminal, the poll loop from the top
is the poll loop with `20 - k` attempts left, about to make call `k`. -/
lemma pollLoop_advance (polls : Nat → PollResp) (k : Nat) (hk : k ≤ 20)
    (hpre : ∀ i, i < k → pollNonTerminal (polls i)) :
    pollLoop polls = pollGo polls (20 - k) k := by
  have h1 : (20 - k) + k = 20 := by omega
  have h2 := pollGo_advance polls k (20 - k) 0
    (fun i hi1 hi2 => hpre i (by omega))
  simp only [pollLoop, max_retries]
  rw [← h1] at h2 ⊢
  simpa using h2

/-- If every in-budget response is non-terminal, the loop exhausts its 20
attempts and falls through. -/
lemma pollLoop_exhausts (polls : Nat → PollResp)
    (hall : ∀ i, i < 20 → pollNonTerminal (polls i)) :
    pollLoop polls = .exhausted 20 := by
  rw [pollLoop_advance polls 20 le_rfl hall]
  rfl

/-! ### Reduction of the media path once container creation succeeded -/

lemma media_of_pollLoop (res : CreateResp) (polls : Nat → PollResp)
    (pubs : Nat → PubResp) (hc : res.status_code = 200) (cid : String)
    (hid : res.id = some cid) (hcid : cid ≠ "") :
    post_to_threads_media res polls pubs =
      (match pollLoop polls with
       | .non200 c => ⟨false, c, 0, false⟩
       | .transcodeError c => ⟨false, c, 0, false⟩
       | .finished c => ⟨(publishLoop pubs).1, c, (publishLoop pubs).2, true⟩
       | .exhausted c =>
          ⟨(publishLoop pubs).1, c, (publishLoop pubs).2, false⟩) := by
  simp [post_to_threads_media, hc, hid, hcid]

/-! ### Helper lemmas about the chunking loop -/

theorem chunkText_flatten (l : List Char) : (chunkText l).flatten = l := by
  match l with
  | [] => simp [chunkText]
  | c :: cs =>
    have ih := chunkText_flatten ((c :: cs).drop max_len)
    simp only [chunkText, List.flatten_cons]
    rw [ih, List.take_append_drop]
termination_by l.length
decreasing_by simp [max_len]; omega

theorem chunkText_length_le (l : List Char) :
    ∀ ch ∈ chunkText l, ch.length ≤ max_len := by
  match l with
  | [] => intro ch h; simp [chunkText] at h
  | c :: cs =>
    intro ch h
    have ih := chunkText_length_le ((c :: cs).drop max_len)
    simp only [chunkText, List.mem_cons] at h
    rcases h with rfl | h
    · simp [List.length_take]
    · exact ih ch h
termination_by l.length
decreasing_by simp [max_len]; omega

/-! ### Claim theorems -/

/-- C1: in the publish step, for every sequence of publish-call responses,
at most 3 publish POSTs are made; every response that was followed by a
further publish call (a retry) was a failure whose JSON error object
carried `error_subcode 2207032`; any made call whose response is a failure
with a different or absent subcode ends the step immediately with a failure
result after exactly that call; and if all three in-budget responses are
non-200 the step's result is failure. -/
theorem publish_retry_policy (pubs : Nat → PubResp) :
    (publishLoop pubs).2 ≤ 3 ∧
    (∀ i, i + 1 < (publishLoop pubs).2 →
      (pubs i).status_code ≠ 200 ∧ subcodeOf (pubs i) = some 2207032) ∧
    (∀ i, i < (publishLoop pubs).2 → (pubs i).status_code ≠ 200 →
      subcodeOf (pubs i) ≠ some 2207032 → publishLoop pubs = (false, i + 1)) ∧
    ((∀ i, i < 3 → (pubs i).status_code ≠ 200) → (publishLoop pubs).1 = false) := by
  refine ⟨?_, ?_, ?_, ?_⟩
  · simpa [publishLoop] using publishGo_calls_le pubs 3 0
  · intro i h
    exact publishGo_retry_prefix pubs 3 0 i (Nat.zero_le i) h
  · intro i h hs hn
    exact publishGo_nonretry_stop pubs 3 0 i (Nat.zero_le i) h hs hn
  · intro h
    exact publishGo_allfail_false pubs 3 0 (fun i _ h2 => h i (by omega))

/-- Witness for C1 at the all-retryable-failures sequence: the budget is
respected and exhausting it yields a failure result. -/
theorem publish_retry_policy_witness :
    (publishLoop (fun _ => ⟨400, some ⟨some ⟨some 2207032⟩⟩⟩)).2 ≤ 3 ∧
    (publishLoop (fun _ => ⟨400, some ⟨some ⟨some 2207032⟩⟩⟩)).1 = false := by
  have h := publish_retry_policy (fun _ => ⟨400, some ⟨some ⟨some 2207032⟩⟩⟩)
  exact ⟨h.1, h.2.2.2 (by decide)⟩

/-- C9: a made publish call whose failure response has no extractable
`error.error_subcode` — the body is not JSON, or the JSON lacks an error
object with a subcode, so `subcodeOf` is `none` — is terminal: the step
returns failure right after that call, with no further publish calls and
without raising (the `json()` exception is caught by the code). -/
theorem publish_unparseable_failure (pubs : Nat → PubResp) (i : Nat)
    (hi : i < 3)
    (hpre : ∀ j, j < i →
      (pubs j).status_code ≠ 200 ∧ subcodeOf (pubs j) = some 2207032)
    (hs : (pubs i).status_code ≠ 200) (hn : subcodeOf (pubs i) = none) :
    publishLoop pubs = (false, i + 1) := by
  have h := publishGo_reach pubs 3 0 i (Nat.zero_le i) (by omega)
    (fun j _ hj => hpre j hj) hs (by simp [hn])
  simpa [publishLoop] using h

/-- Witness for C9: a first-response 500 with an unparseable body fails the
publish step after exactly one call. -/
theorem publish_unparseable_failure_witness :
    publishLoop (fun _ => ⟨500, none⟩) = (false, 1) :=
  publish_unparseable_failure (fun _ => ⟨500, none⟩) 0 (by decide)
    (fun j hj => absurd hj (Nat.not_lt_zero j)) (by decide) (by decide)

/-- C2: for every sequence of poll responses (after a successful container
creation), the poll loop stops at the first terminal response: a non-200
response at position `k` of an otherwise non-terminal prefix fails the
publisher after exactly `k + 1` poll calls with no publish call; so does a
200 response whose body status is `ERROR`; a 200 response with body status
`FINISHED` ends polling at `k + 1` calls, takes the settle sleep, and
proceeds to the publish step; and if no terminal response occurs the loop
makes exactly 20 poll calls. -/
theorem poll_termination (res : CreateResp) (polls : Nat → PollResp)
    (pubs : Nat → PubResp) (hc : res.status_code = 200) (cid : String)
    (hid : res.id = some cid) (hcid : cid ≠ "") :
    (∀ k, k < 20 → (∀ i, i < k → pollNonTerminal (polls i)) →
      ((polls k).status_code ≠ 200 →
        post_to_threads_media res polls pubs = ⟨false, k + 1, 0, false⟩) ∧
      ((polls k).status_code = 200 → (polls k).status = some "ERROR" →
        post_to_threads_media res polls pubs = ⟨false, k + 1, 0, false⟩) ∧
      ((polls k).status_code = 200 → (polls k).status = some "FINISHED" →
        (post_to_threads_media res polls pubs).pollCalls = k + 1 ∧
        (post_to_threads_media res polls pubs).settled = true ∧
        (post_to_threads_media res polls pubs).pubCalls = (publishLoop pubs).2 ∧
        (post_to_threads_media res polls pubs).success = (publishLoop pubs).1)) ∧
    ((∀ i, i < 20 → pollNonTerminal (polls i)) →
      (post_to_threads_media res polls pubs).pollCalls = 20) := by
  have hmedia := media_of_pollLoop res polls pubs hc cid hid hcid
  constructor
  · intro k hk hpre
    have hadv : pollLoop polls = pollGo polls ((19 - k) + 1) k := by
      have h20 : 20 - k = (19 - k) + 1 := by omega
      rw [pollLoop_advance polls k (by omega) hpre, h20]
    refine ⟨?_, ?_, ?_⟩
    · intro h
      have hp : pollLoop polls = .non200 (k + 1) := by
        rw [hadv]; exact pollGo_step_non200 polls (19 - k) k h
      rw [hmedia, hp]
    · intro h200 herr
      have hp : pollLoop polls = .transcodeError (k + 1) := by
        rw [hadv]; exact pollGo_step_error polls (19 - k) k h200 herr
      rw [hmedia, hp]
    · intro h200 hfin
      have hp : pollLoop polls = .finished (k + 1) := by
        rw [hadv]; exact pollGo_step_finished polls (19 - k) k h200 hfin
      rw [hmedia, hp]
      exact ⟨rfl, rfl, rfl, rfl⟩
  · intro hall
    rw [hmedia, pollLoop_exhausts polls hall]

/-- Witness for C2: with a `FINISHED` first poll, exactly one poll call is
made, the settle sleep is taken, and control reaches the publish step. -/
theorem poll_termination_witness :
    (post_to_threads_media ⟨200, some "42"⟩ (fun _ => ⟨200, some "FINISHED"⟩)
      (fun _ => ⟨200, none⟩)).pollCalls = 1 ∧
    (post_to_threads_media ⟨200, some "42"⟩ (fun _ => ⟨200, some "FINISHED"⟩)
      (fun _ => ⟨200, none⟩)).settled = true := by
  have h := poll_termination ⟨200, some "42"⟩ (fun _ => ⟨200, some "FINISHED"⟩)
    (fun _ => ⟨200, none⟩) rfl "42" rfl (by decide)
  have h0 := (h.1 0 (by omega) (fun i hi => absurd hi (Nat.not_lt_zero i))).2.2
    rfl rfl
  exact ⟨h0.1, h0.2.1⟩

/-- C3: if all 20 poll responses are 200 with a body status that is neither
`FINISHED` nor `ERROR`, the publisher does not fail at that point: it makes
exactly 20 poll calls, falls through to the publish step, issues at least
one publish call, and its result is whatever the publish loop returns. -/
theorem poll_exhaustion_fallthrough (res : CreateResp) (polls : Nat → PollResp)
    (pubs : Nat → PubResp) (hc : res.status_code = 200) (cid : String)
    (hid : res.id = some cid) (hcid : cid ≠ "")
    (hall : ∀ i, i < 20 → pollNonTerminal (polls i)) :
    (post_to_threads_media res polls pubs).pollCalls = 20 ∧
    1 ≤ (post_to_threads_media res polls pubs).pubCalls ∧
    (post_to_threads_media res polls pubs).success = (publishLoop pubs).1 := by
  have hmedia := media_of_pollLoop res polls pubs hc cid hid hcid
  rw [hmedia, pollLoop_exhausts polls hall]
  exact ⟨rfl, publishLoop_calls_pos pubs, rfl⟩

/-- Witness for C3: twenty `IN_PROGRESS` polls, then a publish is issued. -/
theorem poll_exhaustion_fallthrough_witness :
    (post_to_threads_media ⟨200, some "42"⟩
      (fun _ => ⟨200, some "IN_PROGRESS"⟩)
      (fun _ => ⟨200, none⟩)).pollCalls = 20 ∧
    1 ≤ (post_to_threads_media ⟨200, some "42"⟩
      (fun _ => ⟨200, some "IN_PROGRESS"⟩)
      (fun _ => ⟨200, none⟩)).pubCalls := by
  have h := poll_exhaustion_fallthrough ⟨200, some "42"⟩
    (fun _ => ⟨200, some "IN_PROGRESS"⟩) (fun _ => ⟨200, none⟩) rfl "42" rfl
    (by decide) (by decide)
  exact ⟨h.1, h.2.1⟩

/-- C4: a container-creation response that is non-200, or is 200 but lacks
an `id` field, fails the media path immediately: result is failure with
zero poll calls and zero publish calls. -/
theorem container_creation_failure_terminal (res : CreateResp)
    (polls : Nat → PollResp) (pubs : Nat → PubResp)
    (h : res.status_code ≠ 200 ∨ res.id = none) :
    post_to_threads_media res polls pubs = ⟨false, 0, 0, false⟩ := by
  rcases h with h | h
  · simp [post_to_threads_media, h]
  · by_cases h2 : res.status_code = 200
    · simp [post_to_threads_media, h2, h]
    · simp [post_to_threads_media, h2]

/-- Witness for C4: an HTTP 500 creation response is terminal with no
polling and no publishing. -/
theorem container_creation_failure_terminal_witness :
    post_to_threads_media ⟨500, none⟩ (fun _ => ⟨200, some "FINISHED"⟩)
      (fun _ => ⟨200, none⟩) = ⟨false, 0, 0, false⟩ :=
  container_creation_failure_terminal ⟨500, none⟩
    (fun _ => ⟨200, some "FINISHED"⟩) (fun _ => ⟨200, none⟩)
    (Or.inl (by decide))

/-- C5: an account whose initial authenticate-and-list call fails has its
summary count recorded as `'ERR'`, and no file selection, no publish
attempt, and no delete call occur for it (the fallback `run()` only
re-attempts authentication, crashes again, and logs the crash). -/
theorem auth_failure_stops_account (env : AccountEnv)
    (h : env.authOk = false) :
    (processAccount env).initial_count = CountVal.err ∧
    ∀ e ∈ (processAccount env).events,
      (∀ n, e ≠ Ev.pick n) ∧ (∀ n, e ≠ Ev.publishAttempt n) ∧
      (∀ p, e ≠ Ev.deleteCall p) := by
  have hev : (processAccount env).events =
      [Ev.storageRead, Ev.storageRead, Ev.crashLogged] := by
    simp [processAccount, run_fn, h]
  refine ⟨by simp [processAccount, h], ?_⟩
  intro e he
  rw [hev] at he
  fin_cases he <;>
    exact ⟨fun n => by simp, fun n => by simp, fun p => by simp⟩

/-- Witness for C5: a concrete account with failing authentication is
recorded with the `'ERR'` count. -/
theorem auth_failure_stops_account_witness :
    (processAccount ⟨"inkwisp", false, [], 0, false, true⟩).initial_count
      = CountVal.err :=
  (auth_failure_stops_account ⟨"inkwisp", false, [], 0, false, true⟩ rfl).1

/-- C6: when a file is selected, the storage delete call happens exactly
once whatever the publish flag is; the recorded publish outcome equals what
`post_to_threads` returned, unaffected by the delete outcome; and a failed
delete only adds the `"Failed to delete file"` warning. -/
theorem delete_attempted_exactly_once (env : AccountEnv)
    (hauth : env.authOk = true)
    (hne : list_dropbox_files env.entries ≠ []) :
    (processAccount env).events.countP Ev.isDelete = 1 ∧
    (processAccount env).post_success = env.postResult ∧
    (env.deleteOk = false →
      Ev.warnDeleteFailed (chosenFile env).name ∈ (processAccount env).events) := by
  rcases hlist : list_dropbox_files env.entries with _ | ⟨f, fs⟩
  · exact absurd hlist hne
  · by_cases hd : env.deleteOk
    · refine ⟨?_, ?_, ?_⟩
      · simp [processAccount, run_with_file, hauth, hlist, hd, Ev.isDelete]
      · simp [processAccount, run_with_file, hauth, hlist, hd]
      · intro hcon; rw [hcon] at hd; simp at hd
    · refine ⟨?_, ?_, ?_⟩
      · simp [processAccount, run_with_file, hauth, hlist, hd, Ev.isDelete]
      · simp [processAccount, run_with_file, hauth, hlist, hd]
      · intro _
        simp [processAccount, run_with_file, hauth, hlist, hd]

/-- Witness for C6: one eligible file, failed publish and failed delete —
the delete is still called exactly once and the warning is logged. -/
theorem delete_attempted_exactly_once_witness :
    (processAccount ⟨"acc", true, [⟨"a.mp4", "/a.mp4"⟩], 0, false, false⟩).events.countP
        Ev.isDelete = 1 ∧
    Ev.warnDeleteFailed
        (chosenFile ⟨"acc", true, [⟨"a.mp4", "/a.mp4"⟩], 0, false, false⟩).name
      ∈ (processAccount ⟨"acc", true, [⟨"a.mp4", "/a.mp4"⟩], 0, false, false⟩).events := by
  have h := delete_attempted_exactly_once
    ⟨"acc", true, [⟨"a.mp4", "/a.mp4"⟩], 0, false, false⟩ rfl (by decide)
  exact ⟨h.1, h.2.2 rfl⟩

/-- C7: an account whose eligible-file listing is empty triggers no publish
attempt and no delete call, and its summary line is exactly
`"{account}: 0 files, no file posted."`. -/
theorem empty_listing_no_posting (env : AccountEnv)
    (hauth : env.authOk = true)
    (hempty : list_dropbox_files env.entries = []) :
    (∀ e ∈ (processAccount env).events,
      (∀ n, e ≠ Ev.publishAttempt n) ∧ (∀ p, e ≠ Ev.deleteCall p)) ∧
    (processAccount env).summary_line =
      env.account_name ++ ": 0 files, no file posted." := by
  have hev : (processAccount env).events = [Ev.storageRead, Ev.storageRead] := by
    simp [processAccount, run_fn, hauth, hempty]
  constructor
  · intro e he
    rw [hev] at he
    fin_cases he <;> exact ⟨fun n => by simp, fun p => by simp⟩
  · have hsum : (processAccount env).summary_line =
        buildSummary env.account_name (CountVal.num 0) none false := by
      simp [processAccount, hauth, hempty]
    rw [hsum]
    show env.account_name ++ (": " ++ (toString 0 ++ " files, no file posted."))
        = env.account_name ++ ": 0 files, no file posted."
    congr 1

/-- Witness for C7: an account with an empty folder yields the exact
summary line and only storage-read events. -/
theorem empty_listing_no_posting_witness :
    (processAccount ⟨"eclipsed.by.you", true, [], 0, false, true⟩).summary_line
      = "eclipsed.by.you" ++ ": 0 files, no file posted." :=
  (empty_listing_no_posting ⟨"eclipsed.by.you", true, [], 0, false, true⟩
    rfl rfl).2

/-- C8: every text the notifier passes to `send_message` — both the flushed
log summary and the overall summary — is at most 4000 characters, and the
chunks, concatenated in send order, reproduce the full text exactly. -/
theorem notifier_chunking (st : NotifState) (sendOk : Nat → Bool)
    (summary_lines : List (List Char)) :
    (∀ ch ∈ (send_log_summary st sendOk).2, ch.length ≤ max_len) ∧
    (st.botConfigured = true → st.log_buffer ≠ [] →
      ((send_log_summary st sendOk).2).flatten =
        List.intercalate [newlineChar] st.log_buffer) ∧
    (∀ ch ∈ send_overall_chunks summary_lines, ch.length ≤ max_len) ∧
    (send_overall_chunks summary_lines).flatten =
      overallSummaryText summary_lines := by
  refine ⟨?_, ?_, ?_, ?_⟩
  · intro ch hch
    simp only [send_log_summary] at hch
    split at hch
    · exact chunkText_length_le _ ch hch
    · simp at hch
  · intro h1 h2
    have hb : (st.botConfigured && !st.log_buffer.isEmpty) = true := by
      simp [h1, List.isEmpty_iff, h2]
    simp [send_log_summary, hb, chunkText_flatten]
  · intro ch hch
    exact chunkText_length_le _ ch hch
  · exact chunkText_flatten _

/-- Witness for C8: a configured bot with a non-empty buffer flushes chunks
that concatenate back to the joined buffer, and the overall-summary chunks
concatenate back to the overall summary text. -/
theorem notifier_chunking_witness :
    ((send_log_summary ⟨true, [['h', 'i']]⟩ (fun _ => true)).2).flatten =
      List.intercalate [newlineChar] [['h', 'i']] ∧
    (send_overall_chunks [['a']]).flatten = overallSummaryText [['a']] := by
  have h := notifier_chunking ⟨true, [['h', 'i']]⟩ (fun _ => true) [['a']]
  exact ⟨h.2.1 rfl (by simp), h.2.2.2⟩

/-- C10: `send_log_summary` always leaves the log buffer empty — whether or
not a bot is configured, whether or not the buffer held anything, and
whatever the per-chunk send outcomes are. -/
theorem send_log_summary_clears_buffer (st : NotifState)
    (sendOk : Nat → Bool) :
    (send_log_summary st sendOk).1.log_buffer = [] := by
  simp only [send_log_summary]
  split <;> rfl
